import Mathlib

/-!
Verification development for the kargo plugin host
(src/kargo-cli: plugins/manager.rs, cli.rs, main.rs,
plugins/host/tasks.rs, plugins/host/functions.rs,
plugins/host/functions_poll.rs).

Rust data is embedded shallowly: u64 counters are Nat reduced mod 2^64 where
the source wraps, byte buffers are List Nat, fallible Rust functions return
Except, and the std HashMap is modelled by key-unique association entries
for its key/value behaviour, with an explicit order parameter wherever its
(arbitrary, RandomState-dependent) iteration order is observable.
-/

set_option autoImplicit false

namespace Kargo

/-! ## Association-map model of std::collections::HashMap (key/value behaviour)

HashMap::get is the first (unique) matching key; HashMap::insert REPLACES the
value stored under an existing key and returns the old one (the kargo sources
discard that return value). -/

/-- Lookup in the key-unique entry list (model of HashMap::get). -/
def assocGet {α β : Type} [DecidableEq α] : List (α × β) → α → Option β
  | [], _ => none
  | kv :: rest, k => if kv.1 = k then some kv.2 else assocGet rest k

/-- Insert into the key-unique entry list (model of HashMap::insert): replaces
the value under an existing key, otherwise appends a fresh entry. -/
def assocInsert {α β : Type} [DecidableEq α] : List (α × β) → α → β → List (α × β)
  | [], k, v => [(k, v)]
  | kv :: rest, k, v => if kv.1 = k then (k, v) :: rest else kv :: assocInsert rest k v

/-! ## host/types.rs -/

/-- HostFunctionResponse (src/kargo-cli/src/plugins/host/types.rs): the
response variants a host handler can send back to a sandboxed plugin. -/
inductive HostFunctionResponse where
  | Success
  | Data (bytes : List Nat)
  | Text (s : String)
  | Error (msg : String)
  | TaskPending
deriving DecidableEq, Repr

/-! ## host/tasks.rs : TaskManager -/

/-- TaskStatus (tasks.rs lines 21-28). -/
inductive TaskStatus where
  | Running
  | Completed (data : List Nat)
  | Failed (msg : String)
deriving DecidableEq, Repr

/-- 2^64: the modulus of the AtomicU64 id counter (fetch_add wraps on u64). -/
def U64_MOD : Nat := 2 ^ 64

/-- State of TaskManager (tasks.rs) together with the process-wide static
TASK_ID_COUNTER (initialised to 1).  The task_registry maps a task name to
its factory; a factory applied to the params string yields none when task
creation fails, and otherwise the created task body, i.e. the Result that
running the task will produce (ok data or error message). -/
structure TaskManagerState where
  counter : Nat
  tasks : List (Nat × TaskStatus)
  registry : List (String × (String → Option (Except String (List Nat))))

/-- TaskManager::spawn_task (tasks.rs lines 54-98): look up the factory (error
if the name is not registered), create the task (error if the factory fails),
then fetch_add the id counter, store Running under the new id, and return the
id.  Both error paths are taken before the counter is touched and before any
table write. -/
def spawn_task (s : TaskManagerState) (task_name params : String) :
    Except String Nat × TaskManagerState :=
  match assocGet s.registry task_name with
  | none => (Except.error ("Task type not registered: " ++ task_name), s)
  | some factory =>
    match factory params with
    | none => (Except.error ("Failed to create task: " ++ task_name), s)
    | some _run =>
      let task_id := s.counter
      (Except.ok task_id,
       { s with
          counter := (s.counter + 1) % U64_MOD,
          tasks := assocInsert s.tasks task_id TaskStatus.Running })

/-- The spawned tokio task body (tasks.rs lines 76-95): once the task run
finishes, its table entry is overwritten with the terminal status. -/
def finishTask (s : TaskManagerState) (task_id : Nat)
    (result : Except String (List Nat)) : TaskManagerState :=
  match result with
  | Except.ok data =>
      { s with tasks := assocInsert s.tasks task_id (TaskStatus.Completed data) }
  | Except.error err =>
      { s with tasks := assocInsert s.tasks task_id (TaskStatus.Failed err) }

/-- TaskManager::poll_task (tasks.rs lines 101-110): read the table under the
lock and translate the entry; the state is returned unchanged because the
body only reads (get and clone).  An absent id yields the formatted
"Task not found" error response. -/
def poll_task (s : TaskManagerState) (task_id : Nat) :
    HostFunctionResponse × TaskManagerState :=
  (match assocGet s.tasks task_id with
   | some TaskStatus.Running => HostFunctionResponse.TaskPending
   | some (TaskStatus.Completed data) => HostFunctionResponse.Data data
   | some (TaskStatus.Failed err) => HostFunctionResponse.Error err
   | none => HostFunctionResponse.Error ("Task not found: " ++ toString task_id),
   s)

/-- Run a sequence of spawn_task calls left to right, collecting each result
(tasks.rs exposes spawn_task behind a mutex-protected table and an atomic
counter, so concurrent calls linearise into such a sequence). -/
def spawnSeq (s : TaskManagerState) :
    List (String × String) → List (Except String Nat) × TaskManagerState
  | [] => ([], s)
  | c :: rest =>
    let r1 := spawn_task s c.1 c.2
    let r2 := spawnSeq r1.2 rest
    (r1.1 :: r2.1, r2.2)

/-- The ids of the successful calls, in call order. -/
def okIds (rs : List (Except String Nat)) : List Nat :=
  rs.filterMap (fun r => match r with | Except.ok i => some i | Except.error _ => none)

/-- Example registry entry: a task type named sleep whose factory always
succeeds and whose run returns no bytes. -/
def sleepRegistry : List (String × (String → Option (Except String (List Nat)))) :=
  [("sleep", fun _ => some (Except.ok []))]

/-- A TaskManagerState as at process start (counter = 1, no tasks) with the
sleep task type registered. -/
def initWithSleep : TaskManagerState :=
  { counter := 1, tasks := [], registry := sleepRegistry }

/-- A TaskManagerState as at process start with an empty task-type registry. -/
def initNoTypes : TaskManagerState :=
  { counter := 1, tasks := [], registry := [] }

/-- Three spawn calls: two for the registered sleep type around one for an
unregistered type. -/
def spawnCallsExample : List (String × String) :=
  [("sleep", "a"), ("nope", "b"), ("sleep", "c")]

/-- A concrete table state used to exercise poll_task: task 1 running, task 2
completed with bytes [7], task 3 failed. -/
def pollExampleState : TaskManagerState :=
  { counter := 4,
    tasks := [(1, TaskStatus.Running),
              (2, TaskStatus.Completed [7]),
              (3, TaskStatus.Failed "boom")],
    registry := [] }

/-! ## plugins/manager.rs : PluginManager -/

/-- A loaded plugin object, abstracted by the command name its clap spec
advertises (what clap().get_name() returns) and a tag distinguishing which
artifact it was produced from. -/
structure LoadedPlugin where
  specName : String
  artifact : Nat
deriving DecidableEq, Repr

/-- PluginManager state (manager.rs lines 18-22): plugins is the
HashMap from command name to plugin object, nativeLibs the kept-alive library
handles (_native_libs), and log the info-level lines the manager emits. -/
structure PluginManagerState where
  plugins : List (String × LoadedPlugin)
  nativeLibs : List Nat
  log : List String
deriving DecidableEq, Repr

/-- The empty PluginManager as built by PluginManager::new. -/
def pmInit : PluginManagerState :=
  { plugins := [], nativeLibs := [], log := [] }

/-- PluginManager::load_native (manager.rs lines 229-238): construct the
plugin via the resolved constructor symbol, then
plugins.insert(plugin.clap().get_name(), plugin) — a plain HashMap::insert,
which replaces any existing entry under the same name — and push the library
handle.  The body emits no log line and performs no duplicate check. -/
def load_native (s : PluginManagerState) (p : LoadedPlugin) : PluginManagerState :=
  { s with
      plugins := assocInsert s.plugins p.specName p,
      nativeLibs := s.nativeLibs ++ [p.artifact] }

/-- PluginManager::plugins_iter (manager.rs lines 149-151) iterates the
plugins HashMap.  The iteration order of std::collections::HashMap is
arbitrary and depends on the per-process RandomState; it is modelled by the
parameter order, the permutation of entry positions the hash state happens
to produce, applied to the stored entries. -/
def plugins_iter (plugins : List (String × LoadedPlugin)) (order : List Nat) :
    List (String × LoadedPlugin) :=
  order.filterMap (fun i => plugins[i]?)

/-- Two plugin objects advertising the same command name mddoc, loaded from
distinct artifacts 1 and 2. -/
def mddocFirst : LoadedPlugin := { specName := "mddoc", artifact := 1 }

/-- Second artifact advertising the duplicate name. -/
def mddocSecond : LoadedPlugin := { specName := "mddoc", artifact := 2 }

/-- A two-entry registry used to exhibit a hash-order different from
insertion order. -/
def twoPluginState : PluginManagerState :=
  load_native (load_native pmInit { specName := "alpha", artifact := 1 })
    { specName := "beta", artifact := 2 }

/-! ## plugins/manager.rs : discover_and_load_plugins -/

/-- One immediate child of a search-path directory as classified by the scan
loop (manager.rs lines 114-134): a subdirectory containing Cargo.toml
(a Rust source-project candidate; ok says whether build_and_load_rust_project
succeeds on it), a file with extension so / dylib / dll (ok says whether
load_native succeeds), a file with extension wasm (ok says whether load_wasm
succeeds), or anything else (skipped). -/
inductive DirEntry where
  | rustProj (ok : Bool)
  | nativeLib (ok : Bool)
  | wasmFile (ok : Bool)
  | other
deriving DecidableEq, Repr

/-- One search-path directory as handled by discover_and_load_plugins
(manager.rs lines 97-134): not a directory (skipped); the directory itself a
plugin project with a root Cargo.toml (ok says whether
build_and_load_rust_project succeeds); or a directory whose children are
scanned (readOk says whether fs::read_dir and the per-entry reads succeed). -/
inductive SearchDir where
  | notDir
  | selfProject (ok : Bool)
  | scan (readOk : Bool) (entries : List DirEntry)
deriving DecidableEq, Repr

/-- Observable log events of the discovery pass (the info! lines of
manager.rs lines 104-130). -/
inductive DiscEvent where
  | selfProjLoaded
  | selfProjFailed
  | rustProjLoaded
  | nativeLoaded
  | nativeFailed
  | wasmLoaded
  | wasmFailed
deriving DecidableEq, Repr

/-- Processing of one scanned child (manager.rs lines 115-133): a failing
Rust source-project candidate is propagated with the ? operator (aborting the
whole pass), while failing native and wasm files are logged and skipped. -/
def processEntry : DirEntry → Except String (List DiscEvent)
  | DirEntry.rustProj true => Except.ok [DiscEvent.rustProjLoaded]
  | DirEntry.rustProj false => Except.error "Rust plugin build failed"
  | DirEntry.nativeLib ok =>
      Except.ok [if ok then DiscEvent.nativeLoaded else DiscEvent.nativeFailed]
  | DirEntry.wasmFile ok =>
      Except.ok [if ok then DiscEvent.wasmLoaded else DiscEvent.wasmFailed]
  | DirEntry.other => Except.ok []

/-- The inner for loop over the children of one scanned directory; a
propagated error ends the loop (and the pass) at once. -/
def processEntries : List DirEntry → Except String (List DiscEvent)
  | [] => Except.ok []
  | e :: rest =>
    match processEntry e with
    | Except.error msg => Except.error msg
    | Except.ok a =>
      match processEntries rest with
      | Except.error msg => Except.error msg
      | Except.ok b => Except.ok (a ++ b)

/-- Processing of one search-path directory (manager.rs lines 97-134): a
non-directory is skipped; a directory that is itself a project is tried with
the outcome only logged (match, never aborting); otherwise fs::read_dir is
unwrapped with ? (read failure aborts) and the children are processed. -/
def processDir : SearchDir → Except String (List DiscEvent)
  | SearchDir.notDir => Except.ok []
  | SearchDir.selfProject ok =>
      Except.ok [if ok then DiscEvent.selfProjLoaded else DiscEvent.selfProjFailed]
  | SearchDir.scan readOk entries =>
      if readOk then processEntries entries else Except.error "read_dir failed"

/-- PluginManager::discover_and_load_plugins (manager.rs lines 95-143): the
outer for loop over the search paths, returning Ok only when no propagated
failure occurred. -/
def discover_and_load_plugins : List SearchDir → Except String (List DiscEvent)
  | [] => Except.ok []
  | d :: rest =>
    match processDir d with
    | Except.error msg => Except.error msg
    | Except.ok a =>
      match discover_and_load_plugins rest with
      | Except.error msg => Except.error msg
      | Except.ok b => Except.ok (a ++ b)

/-- Does this child never abort the pass?  Only a failing Rust source-project
candidate aborts. -/
def DirEntry.nonAborting : DirEntry → Bool
  | DirEntry.rustProj ok => ok
  | _ => true

/-- Does this directory never abort the pass?  A scanned directory aborts
when its read fails or one of its Rust source-project children fails. -/
def SearchDir.nonAborting : SearchDir → Bool
  | SearchDir.scan readOk entries => readOk && entries.all DirEntry.nonAborting
  | _ => true

/-- A search path whose first directory holds a failing source-project
candidate and whose second holds a loadable native library. -/
def abortingSearchPath : List SearchDir :=
  [SearchDir.scan true [DirEntry.rustProj false],
   SearchDir.scan true [DirEntry.nativeLib true]]

/-- A search path with candidate failures of the kinds that the pass
tolerates: a failing directory-level project, a failing native library and a
failing wasm module. -/
def toleratedFailuresPath : List SearchDir :=
  [SearchDir.selfProject false,
   SearchDir.scan true [DirEntry.nativeLib false, DirEntry.wasmFile false, DirEntry.other],
   SearchDir.notDir,
   SearchDir.scan true [DirEntry.wasmFile true]]

/-! ## cli.rs and main.rs : passthrough exit codes -/

/-- proxy_to_cargo (cli.rs lines 37-61): locate cargo on PATH (error when
absent), spawn it with the forwarded arguments, and bail with the anyhow
error "cargo exited with ..." whenever the exit status is not success.
toolStatus models std ExitStatus via code(): some c is exit code c, none is
termination by signal; success() holds exactly for some 0. -/
def proxy_to_cargo (cargoFound : Bool) (toolStatus : Option Int) : Except String Unit :=
  if cargoFound = false then
    Except.error "Failed to find cargo binary in PATH"
  else if toolStatus = some 0 then
    Except.ok ()
  else
    Except.error ("cargo exited with " ++ toString toolStatus)

/-- The explicit cargo arm of dispatch (cli.rs lines 65-85) spawns cargo the
same way and bails identically on a non-success status. -/
def dispatch_cargo_arm (cargoFound : Bool) (toolStatus : Option Int) : Except String Unit :=
  if cargoFound = false then
    Except.error "Failed to find cargo binary in PATH"
  else if toolStatus = some 0 then
    Except.ok ()
  else
    Except.error ("cargo exited with " ++ toString toolStatus)

/-- main (main.rs lines 11-23) returns anyhow Result; the Rust Termination
instance for Result maps Ok to process exit code 0 and Err to the generic
failure exit code 1 (after printing the error). -/
def mainExitCode (r : Except String Unit) : Nat :=
  match r with
  | Except.ok _ => 0
  | Except.error _ => 1

/-- The host process exit code when dispatch routes to passthrough with cargo
present on PATH and the spawned tool finishes with the given status. -/
def host_exit_on_passthrough (toolStatus : Option Int) : Nat :=
  mainExitCode (proxy_to_cargo true toolStatus)

/-! ## cli.rs : residual arguments for a plugin dispatch -/

/-- ExecutionContext (kargo-plugin-api) as filled by dispatch: argv delivered
to the plugin plus the two directories. -/
structure ExecutionContext where
  matched_args : List String
  current_dir : String
  config_dir : String
deriving DecidableEq, Repr

/-- gather_raw_args (cli.rs lines 112-130): take the raw process argv and
skip 2 entries (the program name and the matched subcommand token); when the
remaining tail is empty, fall back to the argument values reconstructed from
the parsed ArgMatches (abstracted here as the parameter reconstructed). -/
def gather_raw_args (rawArgv : List String) (reconstructed : List String) : List String :=
  let args := rawArgv.drop 2
  if args.isEmpty then reconstructed else args

/-- The plugin arm of dispatch (cli.rs lines 87-101): the context argv is the
matched plugin name followed by gather_raw_args. -/
def dispatch_plugin_ctx (name : String) (rawArgv reconstructed : List String)
    (current_dir config_dir : String) : ExecutionContext :=
  { matched_args := name :: gather_raw_args rawArgv reconstructed,
    current_dir := current_dir,
    config_dir := config_dir }

/-! ## host/functions.rs and host/functions_poll.rs : guest-visible outputs -/

/-- A buffer the host allocates in guest memory: raw bytes for Data
responses, the UTF-8 bytes of a message for Text and Error responses. -/
inductive GuestBuf where
  | bytes (b : List Nat)
  | str (s : String)
deriving DecidableEq, Repr

/-- Byte length of an allocated buffer (data.len() or msg.len()). -/
def GuestBuf.byteLen : GuestBuf → Nat
  | GuestBuf.bytes b => b.length
  | GuestBuf.str s => s.utf8ByteSize

/-- The outputs of the read_file host function (functions.rs lines 51-94):
output 0 is the data pointer, output 1 the byte length, output 2 the status
(0 success, 1 error).  Option none marks an output slot the wrapper leaves
unwritten. -/
structure ReadFileOutputs where
  ptr : Option GuestBuf
  len : Option Nat
  status : Nat
deriving DecidableEq, Repr

/-- The outcome match of register_read_file on blocking_recv of the oneshot
reply channel.  none models Err from blocking_recv — the reply sender was
dropped without sending, which tokio oneshot surfaces as RecvError; some r
models Ok(r).  A oneshot channel delivers at most one message, so a single
Option value is the exact observable. -/
def readFileWrapper : Option HostFunctionResponse → ReadFileOutputs
  | some (HostFunctionResponse.Data data) =>
      { ptr := some (GuestBuf.bytes data), len := some data.length, status := 0 }
  | some (HostFunctionResponse.Error msg) =>
      { ptr := some (GuestBuf.str msg), len := some msg.utf8ByteSize, status := 1 }
  | _ =>
      { ptr := some (GuestBuf.str "Unknown error in read_file"),
        len := some ("Unknown error in read_file" : String).utf8ByteSize,
        status := 1 }

/-- What blocking_recv observes for one read_file call: when the bounded
request channel is full, try_send fails and the request — which owns the only
reply sender — is dropped on the spot, so the receiver sees the drop (none);
otherwise the consumer either sends exactly one response (some r) or drops
the reply sender (none). -/
def oneshotOutcome (channelFull : Bool) (handlerReply : Option HostFunctionResponse) :
    Option HostFunctionResponse :=
  if channelFull then none else handlerReply

/-- One complete guest read_file call (functions.rs lines 51-94): the guest
outputs are a function of the at-most-one response observed on the reply
channel. -/
def read_file_call (channelFull : Bool) (handlerReply : Option HostFunctionResponse) :
    ReadFileOutputs :=
  readFileWrapper (oneshotOutcome channelFull handlerReply)

/-- The outputs of the poll_kargo_task host function (functions_poll.rs
lines 25-61): output 0 is ready (0 pending, 1 ready), output 1 the status
(0 success, 1 error), outputs 2 and 3 the pointer and byte length.  The
TaskPending branch writes only output 0, leaving the rest unwritten (none). -/
structure PollOutputs where
  ready : Nat
  status : Option Nat
  ptr : Option GuestBuf
  len : Option Nat
deriving DecidableEq, Repr

/-- The outcome match of register_poll_kargo_task on blocking_recv, in source
order: TaskPending, Data, Text, Error, then the catch-all (Success or a
dropped reply channel). -/
def pollWasmWrapper : Option HostFunctionResponse → PollOutputs
  | some HostFunctionResponse.TaskPending =>
      { ready := 0, status := none, ptr := none, len := none }
  | some (HostFunctionResponse.Data data) =>
      { ready := 1, status := some 0,
        ptr := some (GuestBuf.bytes data), len := some data.length }
  | some (HostFunctionResponse.Text text) =>
      { ready := 1, status := some 0,
        ptr := some (GuestBuf.str text), len := some text.utf8ByteSize }
  | some (HostFunctionResponse.Error msg) =>
      { ready := 1, status := some 1,
        ptr := some (GuestBuf.str msg), len := some msg.utf8ByteSize }
  | _ =>
      { ready := 1, status := some 1,
        ptr := some (GuestBuf.str "Unknown error in poll_kargo_task"),
        len := some ("Unknown error in poll_kargo_task" : String).utf8ByteSize }

/-- Modelled from the spec: the Capability Bridge consumer for PollTask
requests.  src/ registers the guest-facing wrapper (functions_poll.rs) and
implements TaskManager::poll_task (tasks.rs), but the consumer loop wiring a
PollTask request to the TaskManager and its reply channel is not present
under src/; following section 4.5 of the spec (PollTask — delegate to the
Task Registry; reply with TaskPending, Data, Text, or Error) it is modelled
as replying with exactly the Task Registry poll result. -/
def poll_kargo_task (s : TaskManagerState) (task_id : Nat) : PollOutputs :=
  pollWasmWrapper (some (poll_task s task_id).1)

/-- A table whose task 5 failed with a message that coincides with the
not-found text for id 7. -/
def failedLikeNotFound : TaskManagerState :=
  { counter := 6,
    tasks := [(5, TaskStatus.Failed "Task not found: 7")],
    registry := [] }

/-! ## Helper lemmas -/

/-- Lookup immediately after an insert under the same key finds the inserted
value. -/
theorem assocGet_assocInsert_self {α β : Type} [DecidableEq α]
    (m : List (α × β)) (k : α) (v : β) :
    assocGet (assocInsert m k v) k = some v := by
  induction m with
  | nil => simp [assocInsert, assocGet]
  | cons kv rest ih =>
    by_cases h : kv.1 = k
    · simp [assocInsert, assocGet, h]
    · simp [assocInsert, assocGet, h, ih]

/-- Reading every position of a list in index order reproduces the list. -/
theorem filterMap_getElem_range {α : Type} (l : List α) :
    (List.range l.length).filterMap (fun i => l[i]?) = l := by
  induction l with
  | nil => simp
  | cons a t ih =>
    rw [List.length_cons, List.range_succ_eq_map]
    simp only [List.filterMap_cons, List.getElem?_cons_zero, List.filterMap_map]
    have hfun : ((fun i => (a :: t)[i]?) ∘ Nat.succ) = fun i => t[i]? := by
      funext i
      simp
    rw [hfun, ih]

/-- A scanned child list with no failing Rust source-project candidate is
processed to the end without a propagated error. -/
theorem processEntries_ok (entries : List DirEntry)
    (h : entries.all DirEntry.nonAborting = true) :
    ∃ evs, processEntries entries = Except.ok evs := by
  induction entries with
  | nil => exact ⟨[], rfl⟩
  | cons e rest ih =>
    rw [List.all_cons, Bool.and_eq_true] at h
    obtain ⟨he, hrest⟩ := h
    obtain ⟨evs, hevs⟩ := ih hrest
    have hone : ∃ a, processEntry e = Except.ok a := by
      cases e with
      | rustProj ok =>
        cases ok with
        | true => exact ⟨_, rfl⟩
        | false => simp [DirEntry.nonAborting] at he
      | nativeLib ok => exact ⟨_, rfl⟩
      | wasmFile ok => exact ⟨_, rfl⟩
      | other => exact ⟨_, rfl⟩
    obtain ⟨a, ha⟩ := hone
    exact ⟨a ++ evs, by simp [processEntries, ha, hevs]⟩

/-- The shape of one spawn_task call: either it succeeds returning the old
counter value and advancing the counter by one (mod 2^64), while only adding
to the task table, or it fails leaving the whole state untouched. -/
theorem spawn_task_shape (s : TaskManagerState) (n p : String) :
    ((spawn_task s n p).1 = Except.ok s.counter
      ∧ (spawn_task s n p).2.counter = (s.counter + 1) % U64_MOD)
    ∨ ((∃ e, (spawn_task s n p).1 = Except.error e) ∧ (spawn_task s n p).2 = s) := by
  cases hreg : assocGet s.registry n with
  | none =>
    refine Or.inr ⟨⟨"Task type not registered: " ++ n, ?_⟩, ?_⟩ <;>
      simp [spawn_task, hreg]
  | some factory =>
    cases hfac : factory p with
    | none =>
      refine Or.inr ⟨⟨"Failed to create task: " ++ n, ?_⟩, ?_⟩ <;>
        simp [spawn_task, hreg, hfac]
    | some run =>
      refine Or.inl ⟨?_, ?_⟩ <;> simp [spawn_task, hreg, hfac]

/-- Invariants of a spawn sequence whose length keeps the u64 counter away
from wrap-around: the counter never decreases, grows by at most one per
call, every returned id lies between the starting and final counter, and the
returned ids are strictly increasing in call order. -/
theorem spawnSeq_invariants (calls : List (String × String)) (s : TaskManagerState)
    (h : s.counter + calls.length < U64_MOD) :
    s.counter ≤ (spawnSeq s calls).2.counter
    ∧ (spawnSeq s calls).2.counter ≤ s.counter + calls.length
    ∧ (∀ i ∈ okIds (spawnSeq s calls).1, s.counter ≤ i ∧ i < (spawnSeq s calls).2.counter)
    ∧ List.Pairwise (· < ·) (okIds (spawnSeq s calls).1) := by
  induction calls generalizing s with
  | nil =>
    refine ⟨Nat.le_refl _, ?_, ?_, ?_⟩
    · show s.counter ≤ s.counter + 0
      omega
    · intro i hi
      simp [spawnSeq, okIds] at hi
    · show List.Pairwise (· < ·) (okIds [])
      simp [okIds]
  | cons c rest ih =>
    have hsplit : spawnSeq s (c :: rest) =
        ((spawn_task s c.1 c.2).1 :: (spawnSeq (spawn_task s c.1 c.2).2 rest).1,
         (spawnSeq (spawn_task s c.1 c.2).2 rest).2) := by
      simp [spawnSeq]
    rw [List.length_cons] at h
    rcases spawn_task_shape s c.1 c.2 with ⟨hok, hcnt⟩ | ⟨⟨e, herr⟩, hsame⟩
    · -- successful call: the counter strictly advances
      have hlt : s.counter + 1 < U64_MOD := by omega
      have hcnt1 : (spawn_task s c.1 c.2).2.counter = s.counter + 1 := by
        rw [hcnt, Nat.mod_eq_of_lt hlt]
      have hrest : (spawn_task s c.1 c.2).2.counter + rest.length < U64_MOD := by
        rw [hcnt1]
        omega
      obtain ⟨ihA, ihB, ihC, ihD⟩ := ih (spawn_task s c.1 c.2).2 hrest
      have hids : okIds (spawnSeq s (c :: rest)).1 =
          s.counter :: okIds (spawnSeq (spawn_task s c.1 c.2).2 rest).1 := by
        rw [hsplit]
        simp [okIds, hok]
      refine ⟨?_, ?_, ?_, ?_⟩
      · rw [hsplit]
        show s.counter ≤ (spawnSeq (spawn_task s c.1 c.2).2 rest).2.counter
        omega
      · rw [hsplit, List.length_cons]
        show (spawnSeq (spawn_task s c.1 c.2).2 rest).2.counter ≤ s.counter + (rest.length + 1)
        omega
      · intro i hi
        rw [hids] at hi
        rw [hsplit]
        rcases List.mem_cons.mp hi with hhead | htail
        · subst hhead
          refine ⟨Nat.le_refl _, ?_⟩
          show s.counter < (spawnSeq (spawn_task s c.1 c.2).2 rest).2.counter
          omega
        · obtain ⟨hlo, hhi⟩ := ihC i htail
          exact ⟨by omega, hhi⟩
      · rw [hids]
        refine List.Pairwise.cons ?_ ihD
        intro j hj
        obtain ⟨hlo, _⟩ := ihC j hj
        omega
    · -- failed call: nothing changes, the result is filtered out
      have hrest : s.counter + rest.length < U64_MOD := by omega
      obtain ⟨ihA, ihB, ihC, ihD⟩ := ih s hrest
      have hsplit2 : spawnSeq s (c :: rest) =
          ((spawn_task s c.1 c.2).1 :: (spawnSeq s rest).1, (spawnSeq s rest).2) := by
        rw [hsplit, hsame]
      have hids : okIds (spawnSeq s (c :: rest)).1 = okIds (spawnSeq s rest).1 := by
        rw [hsplit2]
        simp [okIds, herr]
      refine ⟨?_, ?_, ?_, ?_⟩
      · rw [hsplit2]
        exact ihA
      · rw [hsplit2, List.length_cons]
        show (spawnSeq s rest).2.counter ≤ s.counter + (rest.length + 1)
        omega
      · intro i hi
        rw [hids] at hi
        rw [hsplit2]
        exact ihC i hi
      · rw [hids]
        exact ihD

/-! ## Claim C1 -/

/-- C1, counterexample.  Loading two plugins that both advertise the command
name mddoc leaves the Registry mapping mddoc to the SECOND loaded plugin,
not the first, and the log contains no entry at all (in particular no
DuplicateName entry): load_native performs a plain HashMap::insert, which
replaces the earlier entry silently. -/
theorem C1_first_wins_counterexample :
    assocGet (load_native (load_native pmInit mddocFirst) mddocSecond).plugins "mddoc"
        = some mddocSecond
    ∧ assocGet (load_native (load_native pmInit mddocFirst) mddocSecond).plugins "mddoc"
        ≠ some mddocFirst
    ∧ (load_native (load_native pmInit mddocFirst) mddocSecond).log = [] := by
  refine ⟨rfl, ?_, rfl⟩
  decide

/-- C1, amended: when two successfully loaded plugins advertise the same
command name, the Registry retains the LAST-loaded one under that name —
HashMap::insert replaces the earlier entry — and the replacement is silent
(the manager log is unchanged; no DuplicateName event exists in the code). -/
theorem C1_last_wins (s : PluginManagerState) (p q : LoadedPlugin)
    (hdup : q.specName = p.specName) :
    assocGet (load_native (load_native s p) q).plugins p.specName = some q
    ∧ (load_native (load_native s p) q).log = s.log := by
  constructor
  · show assocGet (assocInsert (assocInsert s.plugins p.specName p) q.specName q)
        p.specName = some q
    rw [hdup]
    exact assocGet_assocInsert_self _ _ _
  · rfl

/-- C1 witness: the amended statement at the two concrete mddoc plugins. -/
theorem C1_last_wins_witness :
    assocGet (load_native (load_native pmInit mddocFirst) mddocSecond).plugins
        mddocFirst.specName = some mddocSecond
    ∧ (load_native (load_native pmInit mddocFirst) mddocSecond).log = pmInit.log :=
  C1_last_wins pmInit mddocFirst mddocSecond rfl

/-! ## Claim C2 -/

/-- C2, counterexample.  A search path whose first directory contains a
failing Rust source-project candidate and whose second contains a perfectly
loadable native library: the pass is aborted by the propagated build error
(the ? operator on build_and_load_rust_project in the scan loop of
manager.rs lines 116-118), so it does not return success and the second
directory is never reached. -/
theorem C2_candidate_failure_aborts :
    discover_and_load_plugins abortingSearchPath = Except.error "Rust plugin build failed" := by
  rfl

/-- C2, amended: discovery tolerates some candidate failures but not all.
A directory that is itself a failing plugin project, and failing native
shared-library or wasm candidates inside a scanned directory, are logged and
skipped without aborting the pass; when every scanned directory is readable
and none of its source-project subdirectory candidates fails, the pass
returns success.  (A failing source-project subdirectory or an unreadable
directory, by contrast, aborts the pass — see the counterexample.) -/
theorem C2_nonaborting_failures_tolerated (dirs : List SearchDir)
    (h : ∀ d ∈ dirs, SearchDir.nonAborting d = true) :
    ∃ evs, discover_and_load_plugins dirs = Except.ok evs := by
  induction dirs with
  | nil => exact ⟨[], rfl⟩
  | cons d rest ih =>
    obtain ⟨evs, hevs⟩ := ih (fun x hx => h x (List.mem_cons_of_mem d hx))
    have hd := h d (List.mem_cons_self d rest)
    have hdir : ∃ a, processDir d = Except.ok a := by
      cases d with
      | notDir => exact ⟨_, rfl⟩
      | selfProject ok => exact ⟨_, rfl⟩
      | scan readOk entries =>
        rw [SearchDir.nonAborting, Bool.and_eq_true] at hd
        obtain ⟨hro, hall⟩ := hd
        obtain ⟨a, ha⟩ := processEntries_ok entries hall
        exact ⟨a, by simp [processDir, hro, ha]⟩
    obtain ⟨a, ha⟩ := hdir
    exact ⟨a ++ evs, by simp [discover_and_load_plugins, ha, hevs]⟩

/-- C2 witness: a search path containing a failing directory-level project,
a failing native library, a failing wasm module, an irrelevant file and a
missing directory still discovers to success, and the failures appear as
logged events. -/
theorem C2_nonaborting_failures_witness :
    (∀ d ∈ toleratedFailuresPath, SearchDir.nonAborting d = true)
    ∧ (∃ evs, discover_and_load_plugins toleratedFailuresPath = Except.ok evs)
    ∧ discover_and_load_plugins toleratedFailuresPath =
        Except.ok [DiscEvent.selfProjFailed, DiscEvent.nativeFailed,
                   DiscEvent.wasmFailed, DiscEvent.wasmLoaded] :=
  ⟨by decide, C2_nonaborting_failures_tolerated toleratedFailuresPath (by decide), rfl⟩

/-! ## Claim C3 -/

/-- C3, counterexample.  The wrapped tool exits with code 42 on passthrough;
the host process exits with the generic failure code 1, not 42:
proxy_to_cargo turns any non-success status into an anyhow error
(cli.rs lines 56-58), and main maps any error to exit code 1. -/
theorem C3_exit_code_counterexample :
    host_exit_on_passthrough (some 42) = 1 ∧ host_exit_on_passthrough (some 42) ≠ 42 := by
  constructor
  · rfl
  · intro hcontra
    simp [host_exit_on_passthrough, proxy_to_cargo, mainExitCode] at hcontra

/-- C3, amended: whenever dispatch routes to passthrough and the spawned
wrapped tool exits with a nonzero exit code, the host process exits with the
generic failure code 1 (the tool exit code only appears inside the printed
error message), in both the explicit cargo arm and the unknown-subcommand
arm, which bail identically. -/
theorem C3_passthrough_failure_exits_one (c : Int) (hc : c ≠ 0) :
    host_exit_on_passthrough (some c) = 1
    ∧ mainExitCode (dispatch_cargo_arm true (some c)) = 1 := by
  constructor
  · simp [host_exit_on_passthrough, proxy_to_cargo, mainExitCode, hc]
  · simp [dispatch_cargo_arm, mainExitCode, hc]

/-- C3 witness: the amended statement at tool exit code 42. -/
theorem C3_passthrough_failure_witness :
    host_exit_on_passthrough (some 42) = 1
    ∧ mainExitCode (dispatch_cargo_arm true (some 42)) = 1 :=
  C3_passthrough_failure_exits_one 42 (by decide)

/-! ## Claim C4 -/

/-- C4, counterexample.  With two registered plugins (alpha inserted first,
beta second) and the entry-position order 1, 0 — a legitimate iteration
order of a std HashMap, whose iteration order is arbitrary and RandomState
dependent — plugins_iter yields beta before alpha, which is not the
insertion order.  Iteration order is therefore not insertion order and not
stable across runs. -/
theorem C4_insertion_order_counterexample :
    List.Perm [1, 0] (List.range twoPluginState.plugins.length)
    ∧ plugins_iter twoPluginState.plugins [1, 0] ≠ twoPluginState.plugins := by
  constructor
  · decide
  · decide

/-- C4, amended: iterating the registered plugins yields exactly the
registered (name, plugin) pairs — each exactly once — but in an arbitrary
hash-state-dependent order (a permutation of the entries), not necessarily
insertion order. -/
theorem C4_iter_is_permutation (plugins : List (String × LoadedPlugin))
    (order : List Nat) (horder : List.Perm order (List.range plugins.length)) :
    List.Perm (plugins_iter plugins order) plugins := by
  have hperm : List.Perm (plugins_iter plugins order)
      ((List.range plugins.length).filterMap (fun i => plugins[i]?)) :=
    List.Perm.filterMap _ horder
  rw [filterMap_getElem_range] at hperm
  exact hperm

/-- C4 witness: the amended statement at the two-plugin registry with the
reversed order. -/
theorem C4_iter_is_permutation_witness :
    List.Perm (plugins_iter twoPluginState.plugins [1, 0]) twoPluginState.plugins :=
  C4_iter_is_permutation twoPluginState.plugins [1, 0] (by decide)

/-! ## Claim C5 -/

/-- C5: over any sequence of spawn_task calls (within one process lifetime,
so the 64-bit id counter stays below its wrap-around), the ids returned by
the successful calls are strictly increasing in call order, hence pairwise
distinct and never reused. -/
theorem C5_spawn_ids_strictly_increasing (calls : List (String × String))
    (s : TaskManagerState) (h : s.counter + calls.length < U64_MOD) :
    List.Pairwise (· < ·) (okIds (spawnSeq s calls).1)
    ∧ (okIds (spawnSeq s calls).1).Nodup := by
  obtain ⟨-, -, -, hpair⟩ := spawnSeq_invariants calls s h
  exact ⟨hpair, hpair.imp (fun hlt => Nat.ne_of_lt hlt)⟩

/-- C5 witness: three calls from the process-start state (counter 1), the
middle one failing on an unregistered type; the successful ids evaluate to
1, 2 and are strictly increasing. -/
theorem C5_spawn_ids_witness :
    okIds (spawnSeq initWithSleep spawnCallsExample).1 = [1, 2]
    ∧ List.Pairwise (· < ·) (okIds (spawnSeq initWithSleep spawnCallsExample).1) :=
  ⟨rfl, (C5_spawn_ids_strictly_increasing spawnCallsExample initWithSleep (by decide)).1⟩

/-! ## Claim C6 -/

/-- C6: poll_task answers TaskPending exactly when the entry is Running,
Data(bytes) exactly when it is Completed(bytes), Error(message) when it is
Failed(message), and the formatted Task-not-found error when the id is
absent; and it never mutates the task table (the returned state is the
input state). -/
theorem C6_poll_task_faithful (s : TaskManagerState) (id : Nat) :
    ((poll_task s id).1 = HostFunctionResponse.TaskPending
        ↔ assocGet s.tasks id = some TaskStatus.Running)
    ∧ (∀ b, (poll_task s id).1 = HostFunctionResponse.Data b
        ↔ assocGet s.tasks id = some (TaskStatus.Completed b))
    ∧ (∀ m, assocGet s.tasks id = some (TaskStatus.Failed m) →
        (poll_task s id).1 = HostFunctionResponse.Error m)
    ∧ (assocGet s.tasks id = none →
        (poll_task s id).1 = HostFunctionResponse.Error ("Task not found: " ++ toString id))
    ∧ (poll_task s id).2 = s := by
  rcases hget : assocGet s.tasks id with _ | st
  · refine ⟨?_, ?_, ?_, ?_, rfl⟩ <;> simp [poll_task, hget]
  · cases st <;>
      refine ⟨?_, ?_, ?_, ?_, rfl⟩ <;>
      simp [poll_task, hget]

/-- C6 witness: the equivalences applied to the concrete example table
(task 1 running, task 2 completed with [7], task 3 failed, task 4 absent). -/
theorem C6_poll_task_witness :
    (poll_task pollExampleState 1).1 = HostFunctionResponse.TaskPending
    ∧ (poll_task pollExampleState 2).1 = HostFunctionResponse.Data [7]
    ∧ (poll_task pollExampleState 3).1 = HostFunctionResponse.Error "boom"
    ∧ (poll_task pollExampleState 4).1 =
        HostFunctionResponse.Error ("Task not found: " ++ toString 4)
    ∧ (poll_task pollExampleState 1).2 = pollExampleState :=
  ⟨(C6_poll_task_faithful pollExampleState 1).1.mpr rfl,
   ((C6_poll_task_faithful pollExampleState 2).2.1 [7]).mpr rfl,
   (C6_poll_task_faithful pollExampleState 3).2.2.1 "boom" rfl,
   (C6_poll_task_faithful pollExampleState 4).2.2.2.1 rfl,
   (C6_poll_task_faithful pollExampleState 1).2.2.2.2⟩

/-! ## Claim C7 -/

/-- C7: spawning a task whose name is not in the task-type registry fails
with the unknown-task-type error, and the entire state — task table and id
counter included — is returned unchanged: the registry lookup fails before
the counter fetch_add and before any table write. -/
theorem C7_spawn_unknown_type (s : TaskManagerState) (name params : String)
    (h : assocGet s.registry name = none) :
    spawn_task s name params =
      (Except.error ("Task type not registered: " ++ name), s) := by
  simp [spawn_task, h]

/-- C7 witness: spawning the unregistered type zzz from the process-start
state with an empty registry. -/
theorem C7_spawn_unknown_type_witness :
    spawn_task initNoTypes "zzz" "p" =
      (Except.error ("Task type not registered: " ++ "zzz"), initNoTypes) :=
  C7_spawn_unknown_type initNoTypes "zzz" "p" rfl

/-! ## Claim C8 -/

/-- C8: when dispatch resolves a registered plugin name, the context argv is
the name followed by the residual: the raw process argv with the program
name and the matched subcommand token skipped when that tail is non-empty,
and the reconstruction from the parsed matches otherwise. -/
theorem C8_dispatch_argv (prog name : String) (tail reconstructed : List String)
    (cd cfg : String) :
    (tail ≠ [] →
      (dispatch_plugin_ctx name (prog :: name :: tail) reconstructed cd cfg).matched_args
        = name :: tail)
    ∧ (dispatch_plugin_ctx name [prog, name] reconstructed cd cfg).matched_args
        = name :: reconstructed := by
  constructor
  · intro htail
    cases tail with
    | nil => exact absurd rfl htail
    | cons a t => rfl
  · rfl

/-- C8 witness: the mddoc invocation of the spec scenario (raw argv
kargo mddoc tokio@1.28.0 -o docs) and the bare invocation falling back to
the reconstructed arguments. -/
theorem C8_dispatch_argv_witness :
    (dispatch_plugin_ctx "mddoc" ["kargo", "mddoc", "tokio@1.28.0", "-o", "docs"]
        ["recon"] "cd" "cfg").matched_args = ["mddoc", "tokio@1.28.0", "-o", "docs"]
    ∧ (dispatch_plugin_ctx "mddoc" ["kargo", "mddoc"] ["recon"] "cd" "cfg").matched_args
        = ["mddoc", "recon"] :=
  ⟨(C8_dispatch_argv "kargo" "mddoc" ["tokio@1.28.0", "-o", "docs"] ["recon"] "cd" "cfg").1
      (by decide),
   (C8_dispatch_argv "kargo" "mddoc" [] ["recon"] "cd" "cfg").2⟩

/-! ## Claim C9 -/

/-- C9: one read_file host call yields exactly one guest-visible outcome —
the outputs are a function of the at-most-one response observable on the
oneshot reply channel — and the error status is set both when the bounded
request channel is full (try_send fails, dropping the only reply sender)
and when the reply channel is dropped without a response; the success
status 0 occurs exactly when the request was sent and a Data response was
received. -/
theorem C9_read_file_single_outcome (full : Bool)
    (reply : Option HostFunctionResponse) :
    ((read_file_call full reply).status = 0 ∨ (read_file_call full reply).status = 1)
    ∧ (full = true → (read_file_call full reply).status = 1)
    ∧ (reply = none → (read_file_call full reply).status = 1)
    ∧ ((read_file_call full reply).status = 0 ↔
        full = false ∧ ∃ d, reply = some (HostFunctionResponse.Data d)) := by
  cases full with
  | true => simp [read_file_call, oneshotOutcome, readFileWrapper]
  | false =>
    cases reply with
    | none => simp [read_file_call, oneshotOutcome, readFileWrapper]
    | some r => cases r <;> simp [read_file_call, oneshotOutcome, readFileWrapper]

/-- C9 witness: a full channel reports error even though the handler would
have answered with data; a dropped reply channel reports error; a delivered
Data response reports success. -/
theorem C9_read_file_witness :
    (read_file_call true (some (HostFunctionResponse.Data [1]))).status = 1
    ∧ (read_file_call false none).status = 1
    ∧ (read_file_call false (some (HostFunctionResponse.Data [1]))).status = 0 :=
  ⟨(C9_read_file_single_outcome true (some (HostFunctionResponse.Data [1]))).2.1 rfl,
   (C9_read_file_single_outcome false none).2.2.1 rfl,
   ((C9_read_file_single_outcome false (some (HostFunctionResponse.Data [1]))).2.2.2).mpr
      ⟨rfl, [1], rfl⟩⟩

/-! ## Claim C10 -/

/-- C10: at the sandboxed ABI, poll_kargo_task writes the same observable
shape — ready 1, status 1, and a pointer/length to a message string — for a
task in the Failed state and for an id absent from the table, so a guest
cannot distinguish the two conditions through this interface; the concrete
third conjunct exhibits a failed task and a never-spawned id whose guest
outputs are bit-for-bit identical. -/
theorem C10_poll_error_shape (s : TaskManagerState) (id : Nat) :
    (∀ m, assocGet s.tasks id = some (TaskStatus.Failed m) →
      poll_kargo_task s id =
        { ready := 1, status := some 1,
          ptr := some (GuestBuf.str m), len := some m.utf8ByteSize })
    ∧ (assocGet s.tasks id = none →
      poll_kargo_task s id =
        { ready := 1, status := some 1,
          ptr := some (GuestBuf.str ("Task not found: " ++ toString id)),
          len := some ("Task not found: " ++ toString id).utf8ByteSize })
    ∧ poll_kargo_task failedLikeNotFound 5 = poll_kargo_task failedLikeNotFound 7 := by
  refine ⟨?_, ?_, rfl⟩
  · intro m hm
    simp [poll_kargo_task, poll_task, hm, pollWasmWrapper]
  · intro hnone
    simp [poll_kargo_task, poll_task, hnone, pollWasmWrapper]

/-- C10 witness: in the concrete table, polling failed task 5 and polling
the never-spawned id 7 both produce ready 1, status 1 and the same message
buffer. -/
theorem C10_poll_error_shape_witness :
    poll_kargo_task failedLikeNotFound 5 =
      { ready := 1, status := some 1,
        ptr := some (GuestBuf.str "Task not found: 7"),
        len := some ("Task not found: 7" : String).utf8ByteSize }
    ∧ poll_kargo_task failedLikeNotFound 7 =
      { ready := 1, status := some 1,
        ptr := some (GuestBuf.str ("Task not found: " ++ toString 7)),
        len := some ("Task not found: " ++ toString 7).utf8ByteSize } :=
  ⟨(C10_poll_error_shape failedLikeNotFound 5).1 "Task not found: 7" rfl,
   (C10_poll_error_shape failedLikeNotFound 7).2.1 rfl⟩

end Kargo
